import Mathlib

set_option maxRecDepth 10000

/-!
Shallow embedding of the Balancio backend's budget-tracking and
monthly-report core (src/services/budgetTrackingService.js,
src/services/budgetAlertService.js, src/services/monthlyReportService.js,
and the mongoose data model), together with theorems settling the frozen
claims about this code.

Conventions of the embedding:
* Monetary amounts and thresholds are rationals (JS numbers used for money
  and percentages).
* A JS `Date` value is its timestamp: milliseconds since the Unix epoch,
  an integer.  All calendar accessors (`getFullYear`, `getMonth`,
  `toDateString`, the `new Date(y, m, d, ...)` constructor and `setMonth`)
  are modelled in a single fixed (UTC) timezone via the standard
  civil-calendar conversions, including JS month/day overflow
  normalization.
* Mongo/mongoose collaborators become explicit data: the transaction
  store, category store and user store are lists; `findById` is an
  association-list lookup; `ObjectId` values are abstracted to `Nat`.
  Where the source compares an ObjectId's `toString()` *string* against a
  raw ObjectId-typed document field, the runtime type distinction is kept
  (`JsValue`): JS strict equality between a string and an object never
  holds, and the embedding preserves that.
* The effectful services become pure functions of the stores, the current
  time, and (for the alert pipeline) the outcome of the external email
  collaborator; the state they write is returned.
-/

/-! ## Calendar model: civil-calendar conversions (Hinnant's algorithm) -/

/-- A civil (proleptic Gregorian) calendar date, the information carried by
JS `toDateString` / `getFullYear`/`getMonth`/`getDate`.  `month` is 1-12. -/
structure Civil where
  year : Int
  month : Int
  day : Int
deriving DecidableEq, Repr

/-- Day number (days since 1970-01-01) of a civil date; `m` must be 1-12,
`d` may be any integer (day overflow handled by the caller/arithmetic). -/
def daysFromCivil (y m d : Int) : Int :=
  let y' := y - (if m ≤ 2 then 1 else 0)
  let era := Int.fdiv y' 400
  let yoe := y' - era * 400
  let mp := Int.fmod (m + 9) 12
  let doy := Int.fdiv (153 * mp + 2) 5 + d - 1
  let doe := yoe * 365 + Int.fdiv yoe 4 - Int.fdiv yoe 100 + doy
  era * 146097 + doe - 719468

/-- Civil date of a day number (days since 1970-01-01). -/
def civilFromDays (z : Int) : Civil :=
  let z' := z + 719468
  let era := Int.fdiv z' 146097
  let doe := z' - era * 146097
  let yoe := Int.fdiv (doe - Int.fdiv doe 1460 + Int.fdiv doe 36524 - Int.fdiv doe 146096) 365
  let y := yoe + era * 400
  let doy := doe - (365 * yoe + Int.fdiv yoe 4 - Int.fdiv yoe 100)
  let mp := Int.fdiv (5 * doy + 2) 153
  let d := doy - Int.fdiv (153 * mp + 2) 5 + 1
  let m := if mp < 10 then mp + 3 else mp - 9
  { year := y + (if m ≤ 2 then 1 else 0), month := m, day := d }

/-- Milliseconds in one day. -/
def msPerDay : Int := 86400000

/-- Civil calendar date of a timestamp (JS `toDateString`/`getFullYear`/
`getMonth`/`getDate` combined, fixed timezone). -/
def civilOfMs (t : Int) : Civil := civilFromDays (Int.fdiv t msPerDay)

/-- Time of day, in milliseconds, of a timestamp. -/
def msOfDay (t : Int) : Int := Int.fmod t msPerDay

/-- JS `new Date(y, m, d)` at midnight: `m` is 0-based and may be any
integer (normalized into the year), `d` is 1-based and may overflow or be
0/negative (day 0 is the last day of the previous month). -/
def mkDateMs (y m d : Int) : Int :=
  let y' := y + Int.fdiv m 12
  let m' := Int.fmod m 12
  msPerDay * (daysFromCivil y' (m' + 1) 1 + (d - 1))

/-- JS `date.setMonth(m)`: same year, day-of-month and time of day, month
replaced by 0-based `m`, with JS overflow normalization (e.g. setting
month 1 on March 31 yields March 3, because February 31 rolls over). -/
def setMonthMs (t : Int) (m : Int) : Int :=
  let c := civilOfMs t
  mkDateMs c.year m c.day + msOfDay t

/-- English month name, for the report's `toLocaleString` month label;
`m` is 1-based. -/
def monthName (m : Int) : String :=
  if m = 1 then "January" else if m = 2 then "February"
  else if m = 3 then "March" else if m = 4 then "April"
  else if m = 5 then "May" else if m = 6 then "June"
  else if m = 7 then "July" else if m = 8 then "August"
  else if m = 9 then "September" else if m = 10 then "October"
  else if m = 11 then "November" else if m = 12 then "December" else ""

/-- The report's month label:
`toLocaleString('default', \x7b month: 'long', year: 'numeric' \x7d)`. -/
def monthLabel (m y : Int) : String := monthName m ++ " " ++ toString y

/-! ## Data model (mongoose schemas, the fields this core reads) -/

/-- models/Transaction.js (src/unnamed/part_000): the fields read by the
budget/report core.  `categoryId` is the optional category reference. -/
structure Transaction where
  userId : Nat
  amount : ℚ
  type : String
  categoryId : Option Nat
  date : Int
deriving DecidableEq, Repr

/-- models/Category.js: the fields read by the report core. -/
structure Category where
  cid : Nat
  userId : Nat
  name : String
deriving DecidableEq, Repr

/-- models/User.js `monthlyBudget.alertThresholds`. -/
structure AlertThresholds where
  warning : ℚ
  critical : ℚ
deriving DecidableEq, Repr

/-- models/User.js `monthlyBudget.lastAlertSent`: per-threshold timestamps
of the last alert sent (absent when never sent). -/
structure LastAlertSent where
  warning : Option Int
  critical : Option Int
deriving DecidableEq, Repr

/-- models/User.js `monthlyBudget`. -/
structure MonthlyBudget where
  amount : ℚ
  alertThresholds : AlertThresholds
  lastAlertSent : LastAlertSent
deriving DecidableEq, Repr

/-- models/User.js `settings` (the field this core reads). -/
structure UserSettings where
  budgetAlerts : Bool
deriving DecidableEq, Repr

/-- models/User.js: the fields read by the budget/alert core. -/
structure User where
  email : String
  name : String
  monthlyBudget : MonthlyBudget
  settings : UserSettings
deriving DecidableEq, Repr

/-- The user store; `User.findById` becomes an association-list lookup. -/
def findUser (users : List (Nat × User)) (uid : Nat) : Option User :=
  (users.find? (fun p => p.1 = uid)).map Prod.snd

/-! ## budgetTrackingService.js -/

/-- Result of `getMonthlyExpenses` (the fields the alert pipeline reads,
plus the computed period). -/
structure MonthlyExpenses where
  month : Int
  year : Int
  totalExpenses : ℚ
  transactionCount : Nat
  startMs : Int
  endMs : Int
deriving DecidableEq, Repr

/-- budgetTrackingService.getMonthlyExpenses: sums the user's `expense`
transactions inside `[new Date(y, m-1, 1), new Date(y, m, 0, 23:59:59.999)]`
for the requested (or current) month.  The `month || now.getMonth()+1`
defaulting is modelled with `Option`. -/
def getMonthlyExpenses (txns : List Transaction) (uid : Nat)
    (month? year? : Option Int) (nowMs : Int) : MonthlyExpenses :=
  let nowC := civilOfMs nowMs
  let targetMonth := month?.getD nowC.month
  let targetYear := year?.getD nowC.year
  let startDate := mkDateMs targetYear (targetMonth - 1) 1
  let endDate := mkDateMs targetYear targetMonth 0 + 86399999
  let matched := txns.filter (fun t =>
    decide (t.userId = uid ∧ t.type = "expense" ∧ startDate ≤ t.date ∧ t.date ≤ endDate))
  { month := targetMonth, year := targetYear,
    totalExpenses := (matched.map Transaction.amount).sum,
    transactionCount := matched.length,
    startMs := startDate, endMs := endDate }

/-- The `isNewDay` helper inside `checkBudgetStatus`:
`now.toDateString() !== new Date(lastAlert).toDateString()` — a
calendar-date comparison (the date strings are equal exactly when the
civil dates are equal), true when no alert was ever recorded. -/
def isNewDay (nowMs : Int) (lastAlert : Option Int) : Bool :=
  match lastAlert with
  | none => true
  | some t => decide (civilOfMs nowMs ≠ civilOfMs t)

/-- The alert-level / should-send / alert-type decision of
`checkBudgetStatus` (lines 91-118): critical first, then warning, with
per-threshold daily de-duplication. -/
def alertDecision (percentageUsed warningThreshold criticalThreshold : ℚ)
    (lastWarningAlert lastCriticalAlert : Option Int) (nowMs : Int) :
    String × Bool × Option String :=
  if criticalThreshold ≤ percentageUsed then
    if isNewDay nowMs lastCriticalAlert then ("critical", true, some "critical")
    else ("critical", false, none)
  else if warningThreshold ≤ percentageUsed then
    if isNewDay nowMs lastWarningAlert then ("warning", true, some "warning")
    else ("warning", false, none)
  else ("safe", false, none)

/-- JS `Math.round`: round half toward positive infinity. -/
def jsRound (x : ℚ) : Int := Int.fdiv (x + 1/2).num (x + 1/2).den

/-- Round to two decimal places: `Math.round(x * 100) / 100`. -/
def round2 (x : ℚ) : ℚ := (jsRound (x * 100) : ℚ) / 100

/-- The `budgetSet: true` payload of `checkBudgetStatus`. -/
structure BudgetStatusData where
  budget : ℚ
  spent : ℚ
  remaining : ℚ
  percentageUsed : ℚ
  alertLevel : String
  shouldSendAlert : Bool
  alertType : Option String
  warningThreshold : ℚ
  criticalThreshold : ℚ
  monthlyData : MonthlyExpenses
deriving DecidableEq, Repr

/-- Result of `checkBudgetStatus`: either the `budgetSet: false` message
object or the full status. -/
inductive BudgetStatusResult where
  | budgetNotSet
  | budgetSet (d : BudgetStatusData)
deriving DecidableEq, Repr

/-- The status computation of `checkBudgetStatus` once a user with a
nonzero budget was found (lines 83-134). -/
def buildStatus (user : User) (txns : List Transaction) (uid : Nat)
    (nowMs : Int) : BudgetStatusData :=
  let monthlyData := getMonthlyExpenses txns uid none none nowMs
  let budget := user.monthlyBudget.amount
  let spent := monthlyData.totalExpenses
  let percentageUsed := spent / budget * 100
  let warningThreshold := user.monthlyBudget.alertThresholds.warning
  let criticalThreshold := user.monthlyBudget.alertThresholds.critical
  let dec := alertDecision percentageUsed warningThreshold criticalThreshold
    user.monthlyBudget.lastAlertSent.warning
    user.monthlyBudget.lastAlertSent.critical nowMs
  { budget := budget, spent := spent,
    remaining := max 0 (budget - spent),
    percentageUsed := (jsRound (percentageUsed * 100) : ℚ) / 100,
    alertLevel := dec.1, shouldSendAlert := dec.2.1, alertType := dec.2.2,
    warningThreshold := warningThreshold, criticalThreshold := criticalThreshold,
    monthlyData := monthlyData }

/-- budgetTrackingService.checkBudgetStatus (lines 70-144).  A missing
user, a missing budget, or a zero budget amount all take the
`budgetSet: false` early return of line 75. -/
def checkBudgetStatus (users : List (Nat × User)) (txns : List Transaction)
    (uid : Nat) (nowMs : Int) : BudgetStatusResult :=
  match findUser users uid with
  | none => .budgetNotSet
  | some user =>
    if user.monthlyBudget.amount = 0 then .budgetNotSet
    else .budgetSet (buildStatus user txns uid nowMs)

/-- Write the current timestamp into `monthlyBudget.lastAlertSent.<type>`
of one user record. -/
def setLastAlert (u : User) (alertType : String) (nowMs : Int) : User :=
  if alertType = "warning" then
    { u with monthlyBudget :=
      { u.monthlyBudget with lastAlertSent :=
        { u.monthlyBudget.lastAlertSent with warning := some nowMs } } }
  else if alertType = "critical" then
    { u with monthlyBudget :=
      { u.monthlyBudget with lastAlertSent :=
        { u.monthlyBudget.lastAlertSent with critical := some nowMs } } }
  else u

/-- budgetTrackingService.updateLastAlertSent (lines 217-228):
`findByIdAndUpdate` setting `monthlyBudget.lastAlertSent.<alertType>` to
the current time; returns the updated user store. -/
def updateLastAlertSent (users : List (Nat × User)) (uid : Nat)
    (alertType : String) (nowMs : Int) : List (Nat × User) :=
  users.map (fun p => if p.1 = uid then (p.1, setLastAlert p.2 alertType nowMs) else p)

/-! ## budgetAlertService.js -/

/-- The result object of `checkAndSendBudgetAlert` (the fields the claims
are about).  The service's outer catch turns a thrown error into a
`success: false` result carrying the message. -/
structure AlertOutcome where
  success : Bool
  alertSent : Bool
  alertType : Option String
  error : Option String
deriving DecidableEq, Repr

/-- budgetAlertService.checkAndSendBudgetAlert (lines 12-113).  The
external email collaborator's outcome is the `emailOk` parameter
(`emailResult.success`).  Returns the result object together with the
user store after any `updateLastAlertSent` write; the timestamp write
happens only in the email-success branch (line 74). -/
def checkAndSendBudgetAlert (users : List (Nat × User)) (txns : List Transaction)
    (uid : Nat) (nowMs : Int) (emailOk : Bool) : AlertOutcome × List (Nat × User) :=
  match findUser users uid with
  | none =>
    ({ success := false, alertSent := false, alertType := none,
       error := some "User not found" }, users)
  | some user =>
    if !user.settings.budgetAlerts then
      ({ success := true, alertSent := false, alertType := none, error := none }, users)
    else
      match checkBudgetStatus users txns uid nowMs with
      | .budgetNotSet =>
        ({ success := true, alertSent := false, alertType := none, error := none }, users)
      | .budgetSet d =>
        if !d.shouldSendAlert then
          ({ success := true, alertSent := false, alertType := none, error := none }, users)
        else if emailOk then
          ({ success := true, alertSent := true, alertType := d.alertType, error := none },
           updateLastAlertSent users uid (d.alertType.getD "") nowMs)
        else
          ({ success := false, alertSent := false, alertType := none,
             error := some "Failed to send email" }, users)

/-! ## monthlyReportService.js -/

/-- A JS runtime value, as far as the category-resolution comparison is
concerned: the hex string produced by `ObjectId.toString()`, or a
mongoose `ObjectId` instance itself. -/
inductive JsValue where
  | str (s : String)
  | objectId (id : Nat)
deriving DecidableEq, Repr

/-- JS strict equality (`===`): operands of different runtime types are
never strictly equal; two strings compare by contents.  Two ObjectId
instances compare by reference, and a category's `_id` and a
transaction's `categoryId` are always distinct instances, so that case
is also false. -/
def jsStrictEq : JsValue → JsValue → Bool
  | .str a, .str b => a == b
  | _, _ => false

/-- The predicate of `categories.find(c => c._id.toString() === t.categoryId)`
(monthlyReportService.js line 102): the left operand is the *string*
`c._id.toString()`, the right operand is the raw `categoryId` field of a
mongoose Transaction document — an `ObjectId` instance per the schema in
models/Transaction.js (or undefined when absent, and a string is never
strictly equal to undefined).  The strict equality therefore never
holds. -/
def jsCategoryMatch (c : Category) (t : Transaction) : Bool :=
  match t.categoryId with
  | none => false
  | some tid => jsStrictEq (JsValue.str (toString c.cid)) (JsValue.objectId tid)

/-- Category-name resolution of getUserReportData (lines 102-103):
`categories.find(c => c._id.toString() === t.categoryId)`, falling back
to "Other" when nothing matches. -/
def resolveCategoryName (cats : List Category) (t : Transaction) : String :=
  match cats.find? (fun c => jsCategoryMatch c t) with
  | some c => c.name
  | none => "Other"

/-- One step of the `categorySpending` accumulation (line 104):
`categorySpending[name] = (categorySpending[name] || 0) + amount` on a JS
object, i.e. an insertion-ordered association list with unique keys:
add to the first (only) entry with this key, else append a new entry. -/
def addSpending (acc : List (String × ℚ)) (name : String) (amt : ℚ) :
    List (String × ℚ) :=
  match acc with
  | [] => [(name, amt)]
  | p :: ps =>
    if p.1 = name then (p.1, p.2 + amt) :: ps
    else p :: addSpending ps name amt

/-- The per-category expense totals of getUserReportData (lines 99-105),
in first-encountered (JS object insertion) order. -/
def categorySpending (txs : List Transaction) (userCats : List Category) :
    List (String × ℚ) :=
  (txs.filter (fun t => decide (t.type = "expense"))).foldl
    (fun acc t => addSpending acc (resolveCategoryName userCats t) t.amount) []

/-- Stable descending insertion: place `x` after every element whose
amount is `≥ x`'s, before the first strictly smaller one. -/
def insertDesc (x : String × ℚ) : List (String × ℚ) → List (String × ℚ)
  | [] => [x]
  | y :: ys => if y.2 < x.2 then x :: y :: ys else y :: insertDesc x ys

/-- The category sort of getUserReportData (line 108):
`.sort(([,a],[,b]) => b - a)` — a stable sort, descending by amount
(JS `Array.prototype.sort` is stable), realized as stable insertion
sort. -/
def sortByAmountDesc (l : List (String × ℚ)) : List (String × ℚ) :=
  l.foldl (fun acc x => insertDesc x acc) []

/-- The `hasData: true` payload of getUserReportData. -/
structure ReportData where
  month : String
  totalIncome : ℚ
  totalExpenses : ℚ
  netSavings : ℚ
  transactionCount : Nat
  topCategories : List (String × ℚ)
deriving DecidableEq, Repr

/-- Result of getUserReportData: the `hasData: false` sentinel or the
report payload. -/
inductive ReportResult where
  | noData
  | data (r : ReportData)
deriving DecidableEq, Repr

/-- The report date of getUserReportData (lines 66-69): the given
targetDate, or — when omitted — `now` with
`setMonth(getMonth() - 1)` applied (`getMonth()` is 0-based, so the
argument is civil month − 2). -/
def reportDateMs (nowMs : Int) (targetDate : Option Int) : Int :=
  match targetDate with
  | some t => t
  | none => setMonthMs nowMs ((civilOfMs nowMs).month - 2)

/-- The transaction query of getUserReportData (lines 70-79): user's
transactions with `startDate ≤ date ≤ endDate`, where
`startDate = new Date(y, m, 1)` and `endDate = new Date(y, m+1, 0)` —
both at midnight (no 23:59:59.999 on the end date, unlike
getMonthlyExpenses). -/
def periodTransactions (txns : List Transaction) (uid : Nat) (rd : Int) :
    List Transaction :=
  let rc := civilOfMs rd
  let startDate := mkDateMs rc.year (rc.month - 1) 1
  let endDate := mkDateMs rc.year rc.month 0
  txns.filter (fun t =>
    decide (t.userId = uid ∧ startDate ≤ t.date ∧ t.date ≤ endDate))

/-- The aggregation of getUserReportData (lines 94-119) over the period's
transactions. -/
def buildReport (transactions : List Transaction) (cats : List Category)
    (uid : Nat) (rc : Civil) : ReportData :=
  let totalIncome :=
    ((transactions.filter (fun t => decide (t.type = "income"))).map Transaction.amount).sum
  let totalExpenses :=
    ((transactions.filter (fun t => decide (t.type = "expense"))).map Transaction.amount).sum
  let userCats := cats.filter (fun c => decide (c.userId = uid))
  let spending := categorySpending transactions userCats
  { month := monthLabel rc.month rc.year,
    totalIncome := totalIncome, totalExpenses := totalExpenses,
    netSavings := totalIncome - totalExpenses,
    transactionCount := transactions.length,
    topCategories := (sortByAmountDesc spending).take 3 }

/-- monthlyReportService.getUserReportData (lines 65-120). -/
def getUserReportData (txns : List Transaction) (cats : List Category)
    (uid : Nat) (nowMs : Int) (targetDate : Option Int) : ReportResult :=
  if (periodTransactions txns uid (reportDateMs nowMs targetDate)).length = 0 then
    .noData
  else
    .data (buildReport (periodTransactions txns uid (reportDateMs nowMs targetDate))
      cats uid (civilOfMs (reportDateMs nowMs targetDate)))

/-! ## Helper lemmas: checkBudgetStatus inversion and the alert decision -/

theorem checkBudgetStatus_budgetSet_inv {users : List (Nat × User)}
    {txns : List Transaction} {uid : Nat} {nowMs : Int} {d : BudgetStatusData}
    (h : checkBudgetStatus users txns uid nowMs = .budgetSet d) :
    ∃ u, findUser users uid = some u ∧ u.monthlyBudget.amount ≠ 0 ∧
      d = buildStatus u txns uid nowMs := by
  unfold checkBudgetStatus at h
  split at h
  · exact BudgetStatusResult.noConfusion h
  next u heq =>
    split at h
    · exact BudgetStatusResult.noConfusion h
    next hz =>
      injection h with h
      exact ⟨u, heq, hz, h.symm⟩

theorem isNewDay_true_iff (nowMs : Int) (o : Option Int) :
    isNewDay nowMs o = true ↔
      (o = none ∨ ∃ t, o = some t ∧ civilOfMs t ≠ civilOfMs nowMs) := by
  cases o with
  | none => simp [isNewDay]
  | some t => simp [isNewDay, ne_comm]

theorem buildStatus_alertLevel (u : User) (txns : List Transaction)
    (uid : Nat) (nowMs : Int) :
    (buildStatus u txns uid nowMs).alertLevel =
      (alertDecision
        ((getMonthlyExpenses txns uid none none nowMs).totalExpenses /
          u.monthlyBudget.amount * 100)
        u.monthlyBudget.alertThresholds.warning
        u.monthlyBudget.alertThresholds.critical
        u.monthlyBudget.lastAlertSent.warning
        u.monthlyBudget.lastAlertSent.critical nowMs).1 := rfl

theorem buildStatus_shouldSendAlert (u : User) (txns : List Transaction)
    (uid : Nat) (nowMs : Int) :
    (buildStatus u txns uid nowMs).shouldSendAlert =
      (alertDecision
        ((getMonthlyExpenses txns uid none none nowMs).totalExpenses /
          u.monthlyBudget.amount * 100)
        u.monthlyBudget.alertThresholds.warning
        u.monthlyBudget.alertThresholds.critical
        u.monthlyBudget.lastAlertSent.warning
        u.monthlyBudget.lastAlertSent.critical nowMs).2.1 := rfl

theorem buildStatus_alertType (u : User) (txns : List Transaction)
    (uid : Nat) (nowMs : Int) :
    (buildStatus u txns uid nowMs).alertType =
      (alertDecision
        ((getMonthlyExpenses txns uid none none nowMs).totalExpenses /
          u.monthlyBudget.amount * 100)
        u.monthlyBudget.alertThresholds.warning
        u.monthlyBudget.alertThresholds.critical
        u.monthlyBudget.lastAlertSent.warning
        u.monthlyBudget.lastAlertSent.critical nowMs).2.2 := rfl

/-! ## Claims about checkBudgetStatus -/

/-- C10: every `budgetSet=true` result of checkBudgetStatus satisfies the
invariant: `shouldSendAlert` holds iff `alertType` is non-null; a non-null
`alertType` always equals `alertLevel`; and `alertLevel = "safe"` forces
`shouldSendAlert = false` and a null `alertType`. -/
theorem claim_C10_result_invariant (users : List (Nat × User))
    (txns : List Transaction) (uid : Nat) (nowMs : Int) (d : BudgetStatusData)
    (h : checkBudgetStatus users txns uid nowMs = .budgetSet d) :
    (d.shouldSendAlert = true ↔ d.alertType ≠ none) ∧
    (∀ s, d.alertType = some s → d.alertLevel = s) ∧
    (d.alertLevel = "safe" → d.shouldSendAlert = false ∧ d.alertType = none) := by
  obtain ⟨u, _, _, rfl⟩ := checkBudgetStatus_budgetSet_inv h
  rw [buildStatus_alertLevel, buildStatus_shouldSendAlert, buildStatus_alertType]
  unfold alertDecision
  split_ifs <;> simp

/-- Concrete fixture: user 1 with budget 1000, thresholds 80/95, a
critical alert last sent at 23:59 on Jan 1 1970, and one 960 expense in
January 1970; checks run at 00:01 on Jan 2 1970. -/
def userA : User :=
  ⟨"a@ex.com", "Alice", ⟨1000, ⟨80, 95⟩, ⟨none, some 86340000⟩⟩, ⟨true⟩⟩

/-- Concrete fixture: the user store holding `userA` under id 1. -/
def usersA : List (Nat × User) := [(1, userA)]

/-- Concrete fixture: one 960 expense of user 1 inside January 1970. -/
def txnsA : List Transaction := [⟨1, 960, "expense", none, 90000000⟩]

/-- C10 witness: the invariant at the concrete store `usersA`/`txnsA`. -/
theorem claim_C10_witness :
    ((buildStatus userA txnsA 1 86460000).shouldSendAlert = true ↔
      (buildStatus userA txnsA 1 86460000).alertType ≠ none) ∧
    (buildStatus userA txnsA 1 86460000).shouldSendAlert = true :=
  ⟨(claim_C10_result_invariant usersA txnsA 1 86460000 _
      (by with_unfolding_all rfl)).1,
   by with_unfolding_all decide⟩

theorem buildStatus_budget (u : User) (txns : List Transaction)
    (uid : Nat) (nowMs : Int) :
    (buildStatus u txns uid nowMs).budget = u.monthlyBudget.amount := rfl

theorem buildStatus_spent (u : User) (txns : List Transaction)
    (uid : Nat) (nowMs : Int) :
    (buildStatus u txns uid nowMs).spent =
      (getMonthlyExpenses txns uid none none nowMs).totalExpenses := rfl

theorem buildStatus_warningThreshold (u : User) (txns : List Transaction)
    (uid : Nat) (nowMs : Int) :
    (buildStatus u txns uid nowMs).warningThreshold =
      u.monthlyBudget.alertThresholds.warning := rfl

theorem buildStatus_criticalThreshold (u : User) (txns : List Transaction)
    (uid : Nat) (nowMs : Int) :
    (buildStatus u txns uid nowMs).criticalThreshold =
      u.monthlyBudget.alertThresholds.critical := rfl

/-- C1: with a configured budget and a selected alert level (warning or
critical), `shouldSendAlert` is true iff the `lastAlertSent` timestamp of
that alert type is absent or falls on a different calendar date than
today — a same-calendar-date test, not an elapsed-hours test. -/
theorem claim_C1_daily_dedup (users : List (Nat × User))
    (txns : List Transaction) (uid : Nat) (nowMs : Int) (u : User)
    (d : BudgetStatusData)
    (hf : findUser users uid = some u)
    (h : checkBudgetStatus users txns uid nowMs = .budgetSet d) :
    (d.alertLevel = "critical" →
      (d.shouldSendAlert = true ↔
        (u.monthlyBudget.lastAlertSent.critical = none ∨
         ∃ t, u.monthlyBudget.lastAlertSent.critical = some t ∧
           civilOfMs t ≠ civilOfMs nowMs))) ∧
    (d.alertLevel = "warning" →
      (d.shouldSendAlert = true ↔
        (u.monthlyBudget.lastAlertSent.warning = none ∨
         ∃ t, u.monthlyBudget.lastAlertSent.warning = some t ∧
           civilOfMs t ≠ civilOfMs nowMs))) := by
  obtain ⟨u', hf', hz, rfl⟩ := checkBudgetStatus_budgetSet_inv h
  rw [hf] at hf'
  injection hf' with hu
  subst hu
  rw [buildStatus_alertLevel, buildStatus_shouldSendAlert,
    ← isNewDay_true_iff, ← isNewDay_true_iff]
  unfold alertDecision
  split_ifs with h1 h2 h3 h4 <;> simp_all

/-- C1 witness: the 23:59 / 00:01 scenario — the critical alert was last
sent at 23:59 on Jan 1 1970 and the check runs at 00:01 on Jan 2 1970
with 96% of budget used, so the alert fires again. -/
theorem claim_C1_witness :
    (buildStatus userA txnsA 1 86460000).alertLevel = "critical" ∧
    ((buildStatus userA txnsA 1 86460000).shouldSendAlert = true ↔
      (userA.monthlyBudget.lastAlertSent.critical = none ∨
       ∃ t, userA.monthlyBudget.lastAlertSent.critical = some t ∧
         civilOfMs t ≠ civilOfMs 86460000)) ∧
    (buildStatus userA txnsA 1 86460000).shouldSendAlert = true :=
  ⟨by with_unfolding_all decide,
   (claim_C1_daily_dedup usersA txnsA 1 86460000 userA _
      (by with_unfolding_all rfl) (by with_unfolding_all rfl)).1
      (by with_unfolding_all decide),
   by with_unfolding_all decide⟩

/-- C2: for a nonzero budget, with `percentageUsed = spent/budget*100`:
at or above the critical threshold the alert level is `critical` (even
when also above warning) and only a critical alert can be selected;
below critical but at or above warning it is `warning`; below both it is
`safe`; and at most one alert type is ever selected. -/
theorem claim_C2_critical_precedence (users : List (Nat × User))
    (txns : List Transaction) (uid : Nat) (nowMs : Int) (d : BudgetStatusData)
    (h : checkBudgetStatus users txns uid nowMs = .budgetSet d)
    (hb : 0 < d.budget) :
    (d.criticalThreshold ≤ d.spent / d.budget * 100 →
      d.alertLevel = "critical" ∧
      (d.alertType = none ∨ d.alertType = some "critical")) ∧
    (d.spent / d.budget * 100 < d.criticalThreshold →
      d.warningThreshold ≤ d.spent / d.budget * 100 →
      d.alertLevel = "warning") ∧
    (d.spent / d.budget * 100 < d.criticalThreshold →
      d.spent / d.budget * 100 < d.warningThreshold →
      d.alertLevel = "safe") ∧
    (d.alertType = none ∨ d.alertType = some "critical" ∨
      d.alertType = some "warning") := by
  obtain ⟨u, _, _, rfl⟩ := checkBudgetStatus_budgetSet_inv h
  rw [buildStatus_alertLevel, buildStatus_alertType, buildStatus_spent,
    buildStatus_budget, buildStatus_warningThreshold, buildStatus_criticalThreshold]
  unfold alertDecision
  split_ifs with h1 h2 h3 h4 <;> simp_all [not_le]

/-- C2 witness: user 1 at 96% of budget with thresholds 80/95 is above
both thresholds and gets only the critical level/alert type. -/
theorem claim_C2_witness :
    (buildStatus userA txnsA 1 86460000).alertLevel = "critical" ∧
    ((buildStatus userA txnsA 1 86460000).alertType = none ∨
     (buildStatus userA txnsA 1 86460000).alertType = some "critical") ∧
    (buildStatus userA txnsA 1 86460000).warningThreshold ≤
      (buildStatus userA txnsA 1 86460000).spent /
        (buildStatus userA txnsA 1 86460000).budget * 100 :=
  ⟨((claim_C2_critical_precedence usersA txnsA 1 86460000 _
      (by with_unfolding_all rfl) (by with_unfolding_all decide)).1
      (by with_unfolding_all decide)).1,
   ((claim_C2_critical_precedence usersA txnsA 1 86460000 _
      (by with_unfolding_all rfl) (by with_unfolding_all decide)).1
      (by with_unfolding_all decide)).2,
   by with_unfolding_all decide⟩

/-- C5: for a nonzero budget the returned `percentageUsed` equals
`round2(spent/budget*100)` and `remaining` equals `max(0, budget-spent)`. -/
theorem claim_C5_percentage_and_remaining (users : List (Nat × User))
    (txns : List Transaction) (uid : Nat) (nowMs : Int) (d : BudgetStatusData)
    (h : checkBudgetStatus users txns uid nowMs = .budgetSet d)
    (hb : 0 < d.budget) :
    d.percentageUsed = round2 (d.spent / d.budget * 100) ∧
    d.remaining = max 0 (d.budget - d.spent) := by
  obtain ⟨u, _, _, rfl⟩ := checkBudgetStatus_budgetSet_inv h
  exact ⟨rfl, rfl⟩

/-- C5 witness: the formulas at the concrete store `usersA`/`txnsA`
(960 spent of 1000: 96% used, 40 remaining). -/
theorem claim_C5_witness :
    ((buildStatus userA txnsA 1 86460000).percentageUsed =
      round2 ((buildStatus userA txnsA 1 86460000).spent /
        (buildStatus userA txnsA 1 86460000).budget * 100) ∧
     (buildStatus userA txnsA 1 86460000).remaining =
      max 0 ((buildStatus userA txnsA 1 86460000).budget -
        (buildStatus userA txnsA 1 86460000).spent)) ∧
    (buildStatus userA txnsA 1 86460000).percentageUsed = 96 ∧
    (buildStatus userA txnsA 1 86460000).remaining = 40 :=
  ⟨claim_C5_percentage_and_remaining usersA txnsA 1 86460000 _
     (by with_unfolding_all rfl) (by with_unfolding_all decide),
   by with_unfolding_all decide,
   by with_unfolding_all decide⟩

/-- C6: a user whose monthly budget amount is 0 gets the ordinary
`budgetSet:false` result (not an error), and the result does not depend
on the transaction store at all — no transactions are consulted. -/
theorem claim_C6_zero_budget (users : List (Nat × User))
    (txns txns2 : List Transaction) (uid : Nat) (nowMs : Int) (u : User)
    (hf : findUser users uid = some u)
    (hz : u.monthlyBudget.amount = 0) :
    checkBudgetStatus users txns uid nowMs = .budgetNotSet ∧
    checkBudgetStatus users txns uid nowMs =
      checkBudgetStatus users txns2 uid nowMs := by
  have h1 : ∀ ts, checkBudgetStatus users ts uid nowMs = .budgetNotSet := by
    intro ts
    simp [checkBudgetStatus, hf, hz]
  exact ⟨h1 txns, (h1 txns).trans (h1 txns2).symm⟩

/-- Concrete fixture: user 2 with monthly budget amount 0 (unset). -/
def userZ : User := ⟨"z@ex.com", "Zoe", ⟨0, ⟨80, 95⟩, ⟨none, none⟩⟩, ⟨true⟩⟩

/-- Concrete fixture: the user store holding `userZ` under id 2. -/
def usersZ : List (Nat × User) := [(2, userZ)]

/-- C6 witness: the zero-budget user gets `budgetNotSet` and the result
is the same for two different transaction stores. -/
theorem claim_C6_witness :
    checkBudgetStatus usersZ txnsA 2 86460000 = .budgetNotSet ∧
    checkBudgetStatus usersZ txnsA 2 86460000 =
      checkBudgetStatus usersZ [] 2 86460000 :=
  claim_C6_zero_budget usersZ txnsA [] 2 86460000 userZ
    (by with_unfolding_all rfl) (by with_unfolding_all decide)

/-! ## Claims about the alert pipeline (budgetAlertService) -/

/-- C7: when an alert dispatch is attempted (user found, alerts enabled,
budget set, `shouldSendAlert`), the `lastAlertSent` timestamp is written
exactly when the email dispatch succeeded; a failed send leaves the user
store unchanged (for these and for all inputs), so the alert is retried
on the next check. -/
theorem claim_C7_timestamp_iff_email_success (users : List (Nat × User))
    (txns : List Transaction) (uid : Nat) (nowMs : Int) (u : User)
    (d : BudgetStatusData)
    (hf : findUser users uid = some u)
    (ha : u.settings.budgetAlerts = true)
    (hs : checkBudgetStatus users txns uid nowMs = .budgetSet d)
    (hsend : d.shouldSendAlert = true) :
    (checkAndSendBudgetAlert users txns uid nowMs true).2 =
      updateLastAlertSent users uid (d.alertType.getD "") nowMs ∧
    (checkAndSendBudgetAlert users txns uid nowMs true).1.alertSent = true ∧
    (checkAndSendBudgetAlert users txns uid nowMs false).2 = users ∧
    (checkAndSendBudgetAlert users txns uid nowMs false).1.alertSent = false ∧
    (∀ (us : List (Nat × User)) (ts : List Transaction) (i : Nat) (n : Int),
      (checkAndSendBudgetAlert us ts i n false).2 = us) := by
  have hgen : ∀ (us : List (Nat × User)) (ts : List Transaction) (i : Nat) (n : Int),
      (checkAndSendBudgetAlert us ts i n false).2 = us := by
    intro us ts i n
    unfold checkAndSendBudgetAlert
    split
    · rfl
    next v _ =>
      by_cases hv : v.settings.budgetAlerts
      · simp only [hv, Bool.not_true, Bool.false_eq_true, if_false]
        split
        · rfl
        next e _ =>
          by_cases he : e.shouldSendAlert <;> simp [he]
      · simp [hv]
  refine ⟨?_, ?_, hgen users txns uid nowMs, ?_, hgen⟩ <;>
    simp [checkAndSendBudgetAlert, hf, ha, hs, hsend]

/-- C7 witness: at `usersA`/`txnsA` a critical alert is due; a
successful email updates the critical `lastAlertSent`, a failed email
leaves the store untouched. -/
theorem claim_C7_witness :
    (checkAndSendBudgetAlert usersA txnsA 1 86460000 true).2 =
      updateLastAlertSent usersA 1
        ((buildStatus userA txnsA 1 86460000).alertType.getD "") 86460000 ∧
    (checkAndSendBudgetAlert usersA txnsA 1 86460000 true).1.alertSent = true ∧
    (checkAndSendBudgetAlert usersA txnsA 1 86460000 false).2 = usersA ∧
    (checkAndSendBudgetAlert usersA txnsA 1 86460000 false).1.alertSent = false :=
  ⟨(claim_C7_timestamp_iff_email_success usersA txnsA 1 86460000 userA _
      (by with_unfolding_all rfl) rfl (by with_unfolding_all rfl)
      (by with_unfolding_all decide)).1,
   (claim_C7_timestamp_iff_email_success usersA txnsA 1 86460000 userA _
      (by with_unfolding_all rfl) rfl (by with_unfolding_all rfl)
      (by with_unfolding_all decide)).2.1,
   (claim_C7_timestamp_iff_email_success usersA txnsA 1 86460000 userA _
      (by with_unfolding_all rfl) rfl (by with_unfolding_all rfl)
      (by with_unfolding_all decide)).2.2.1,
   (claim_C7_timestamp_iff_email_success usersA txnsA 1 86460000 userA _
      (by with_unfolding_all rfl) rfl (by with_unfolding_all rfl)
      (by with_unfolding_all decide)).2.2.2.1⟩

/-- C9 counterexample: `checkBudgetStatus` on a nonexistent user id (99)
does not surface a NotFound error — it returns the ordinary
`budgetSet:false` result, the very same value an existing user without a
configured budget receives. -/
theorem claim_C9_counterexample :
    checkBudgetStatus usersA [] 99 0 = BudgetStatusResult.budgetNotSet ∧
    checkBudgetStatus usersZ [] 2 0 = BudgetStatusResult.budgetNotSet :=
  ⟨by with_unfolding_all rfl, by with_unfolding_all rfl⟩

/-- C9 (amended): for a nonexistent user id, `checkBudgetStatus` returns
the ordinary `budgetSet:false` result; the NotFound error arises in
`checkAndSendBudgetAlert`, which reports `"User not found"` as a failed
(`success:false`) result to its caller — not retried, and with the user
store untouched. -/
theorem claim_C9_amended_notfound (users : List (Nat × User))
    (txns : List Transaction) (uid : Nat) (nowMs : Int) (emailOk : Bool)
    (hf : findUser users uid = none) :
    checkBudgetStatus users txns uid nowMs = .budgetNotSet ∧
    (checkAndSendBudgetAlert users txns uid nowMs emailOk).1.success = false ∧
    (checkAndSendBudgetAlert users txns uid nowMs emailOk).1.error =
      some "User not found" ∧
    (checkAndSendBudgetAlert users txns uid nowMs emailOk).2 = users := by
  refine ⟨?_, ?_, ?_, ?_⟩ <;>
    simp [checkBudgetStatus, checkAndSendBudgetAlert, hf]

/-- C9 witness: user id 99 is absent from `usersA`; the alert service
reports the NotFound failure while the status check returns the ordinary
no-budget result. -/
theorem claim_C9_witness :
    checkBudgetStatus usersA txnsA 99 86460000 = .budgetNotSet ∧
    (checkAndSendBudgetAlert usersA txnsA 99 86460000 true).1.success = false ∧
    (checkAndSendBudgetAlert usersA txnsA 99 86460000 true).1.error =
      some "User not found" ∧
    (checkAndSendBudgetAlert usersA txnsA 99 86460000 true).2 = usersA :=
  claim_C9_amended_notfound usersA txnsA 99 86460000 true
    (by with_unfolding_all rfl)

/-! ## Claims about getUserReportData (monthlyReportService) -/

/-- Month label of a report result ("" for the no-data sentinel). -/
def monthOf : ReportResult → String
  | .noData => ""
  | .data r => r.month

/-- Transaction count of a report result (0 for the no-data sentinel). -/
def transactionCountOf : ReportResult → Nat
  | .noData => 0
  | .data r => r.transactionCount

/-- Total income of a report result (0 for the no-data sentinel). -/
def totalIncomeOf : ReportResult → ℚ
  | .noData => 0
  | .data r => r.totalIncome

/-- Total expenses of a report result (0 for the no-data sentinel). -/
def totalExpensesOf : ReportResult → ℚ
  | .noData => 0
  | .data r => r.totalExpenses

/-- Net savings of a report result (0 for the no-data sentinel). -/
def netSavingsOf : ReportResult → ℚ
  | .noData => 0
  | .data r => r.netSavings

/-- Top categories of a report result ([] for the no-data sentinel). -/
def topCategoriesOf : ReportResult → List (String × ℚ)
  | .noData => []
  | .data r => r.topCategories

/-- C3 (evaluation at the failing inputs): getUserReportData's default
period is not the full previous calendar month.  First: on
1970-03-05, the period's end is *midnight* of Feb 28 (not 23:59:59.999),
so an expense at noon on Feb 28 — squarely inside the last day of the
previous month (third conjunct) — is excluded and the report says no
data.  Second: on 1970-03-31, `setMonth(getMonth()-1)` rolls Feb 31 over
to Mar 3, so the "previous month" report actually covers March, the
current month. -/
theorem claim_C3_code_bug_report_period :
    getUserReportData [⟨1, 100, "expense", none, mkDateMs 1970 1 28 + 43200000⟩]
        [] 1 (mkDateMs 1970 2 5) none = .noData ∧
    monthOf (getUserReportData [⟨1, 100, "expense", none, mkDateMs 1970 2 10⟩]
        [] 1 (mkDateMs 1970 2 31) none) = "March 1970" ∧
    civilOfMs (mkDateMs 1970 1 28 + 43200000) = ⟨1970, 2, 28⟩ ∧
    civilOfMs (mkDateMs 1970 2 31) = ⟨1970, 3, 31⟩ :=
  ⟨by with_unfolding_all rfl, by with_unfolding_all decide,
   by with_unfolding_all decide, by with_unfolding_all decide⟩

theorem jsCategoryMatch_false (c : Category) (t : Transaction) :
    jsCategoryMatch c t = false := by
  unfold jsCategoryMatch
  cases t.categoryId with
  | none => rfl
  | some tid => rfl

theorem resolveCategoryName_eq_other (cats : List Category)
    (t : Transaction) :
    resolveCategoryName cats t = "Other" := by
  unfold resolveCategoryName
  have h : cats.find? (fun c => jsCategoryMatch c t) = none := by
    rw [List.find?_eq_none]
    intro c _
    simp [jsCategoryMatch_false]
  rw [h]

/-- C4 (the claim is the intent, the code a slip — evaluation at the
failing input): `c._id.toString() === t.categoryId` compares the id's
hex string against the ObjectId instance stored on the transaction, so
the strict equality is false for every category/transaction pair, the
`find` never matches, and every expense falls back to "Other" —
resolution never succeeds (first conjunct, and
`resolveCategoryName_eq_other` in general).  On the spec scenario the
totals come out as claimed, but topCategories is [("Other", 350)], not
[("Rent", 200), ("Food", 150)]. -/
theorem claim_C4_code_bug_category_resolution :
    resolveCategoryName [⟨10, 1, "Food"⟩, ⟨20, 1, "Rent"⟩]
      ⟨1, 100, "expense", some 10, mkDateMs 1970 2 10⟩ = "Other" ∧
    totalExpensesOf (getUserReportData
        [⟨1, 100, "expense", some 10, mkDateMs 1970 2 10⟩,
         ⟨1, 50, "expense", some 10, mkDateMs 1970 2 10⟩,
         ⟨1, 200, "expense", some 20, mkDateMs 1970 2 10⟩,
         ⟨1, 500, "income", none, mkDateMs 1970 2 10⟩]
        [⟨10, 1, "Food"⟩, ⟨20, 1, "Rent"⟩] 1 0 (some (mkDateMs 1970 2 15))) = 350 ∧
    totalIncomeOf (getUserReportData
        [⟨1, 100, "expense", some 10, mkDateMs 1970 2 10⟩,
         ⟨1, 50, "expense", some 10, mkDateMs 1970 2 10⟩,
         ⟨1, 200, "expense", some 20, mkDateMs 1970 2 10⟩,
         ⟨1, 500, "income", none, mkDateMs 1970 2 10⟩]
        [⟨10, 1, "Food"⟩, ⟨20, 1, "Rent"⟩] 1 0 (some (mkDateMs 1970 2 15))) = 500 ∧
    netSavingsOf (getUserReportData
        [⟨1, 100, "expense", some 10, mkDateMs 1970 2 10⟩,
         ⟨1, 50, "expense", some 10, mkDateMs 1970 2 10⟩,
         ⟨1, 200, "expense", some 20, mkDateMs 1970 2 10⟩,
         ⟨1, 500, "income", none, mkDateMs 1970 2 10⟩]
        [⟨10, 1, "Food"⟩, ⟨20, 1, "Rent"⟩] 1 0 (some (mkDateMs 1970 2 15))) = 150 ∧
    transactionCountOf (getUserReportData
        [⟨1, 100, "expense", some 10, mkDateMs 1970 2 10⟩,
         ⟨1, 50, "expense", some 10, mkDateMs 1970 2 10⟩,
         ⟨1, 200, "expense", some 20, mkDateMs 1970 2 10⟩,
         ⟨1, 500, "income", none, mkDateMs 1970 2 10⟩]
        [⟨10, 1, "Food"⟩, ⟨20, 1, "Rent"⟩] 1 0 (some (mkDateMs 1970 2 15))) = 4 ∧
    topCategoriesOf (getUserReportData
        [⟨1, 100, "expense", some 10, mkDateMs 1970 2 10⟩,
         ⟨1, 50, "expense", some 10, mkDateMs 1970 2 10⟩,
         ⟨1, 200, "expense", some 20, mkDateMs 1970 2 10⟩,
         ⟨1, 500, "income", none, mkDateMs 1970 2 10⟩]
        [⟨10, 1, "Food"⟩, ⟨20, 1, "Rent"⟩] 1 0 (some (mkDateMs 1970 2 15))) =
      [("Other", 350)] := by
  refine ⟨resolveCategoryName_eq_other _ _, ?_, ?_, ?_, ?_, ?_⟩
  · with_unfolding_all decide
  · with_unfolding_all decide
  · with_unfolding_all decide
  · with_unfolding_all decide
  · with_unfolding_all decide


/-! ## Sorting and accumulation lemmas for the top-categories claim -/

theorem insertDesc_perm (x : String × ℚ) (l : List (String × ℚ)) :
    List.Perm (insertDesc x l) (x :: l) := by
  induction l with
  | nil => exact List.Perm.refl _
  | cons y ys ih =>
    unfold insertDesc
    split
    · exact List.Perm.refl _
    · exact (ih.cons y).trans (List.Perm.swap x y ys)

theorem insertDesc_pairwise {l : List (String × ℚ)} (x : String × ℚ)
    (h : l.Pairwise (fun a b => b.2 ≤ a.2)) :
    (insertDesc x l).Pairwise (fun a b => b.2 ≤ a.2) := by
  induction l with
  | nil => simp [insertDesc]
  | cons y ys ih =>
    rw [List.pairwise_cons] at h
    obtain ⟨hy, hys⟩ := h
    unfold insertDesc
    split
    next hlt =>
      refine List.Pairwise.cons ?_ (List.Pairwise.cons hy hys)
      intro z hz
      rcases List.mem_cons.mp hz with rfl | hz
      · exact le_of_lt hlt
      · exact le_trans (hy z hz) (le_of_lt hlt)
    next hge =>
      refine List.Pairwise.cons ?_ (ih hys)
      intro z hz
      have hz' : z ∈ x :: ys := (insertDesc_perm x ys).mem_iff.mp hz
      rcases List.mem_cons.mp hz' with rfl | hz'
      · exact not_lt.mp hge
      · exact hy z hz'

theorem insertDesc_filter_eq (x : String × ℚ) (q : ℚ) (hx : x.2 = q)
    {l : List (String × ℚ)} (h : l.Pairwise (fun a b => b.2 ≤ a.2)) :
    (insertDesc x l).filter (fun p => decide (p.2 = q)) =
      l.filter (fun p => decide (p.2 = q)) ++ [x] := by
  induction l with
  | nil => simp [insertDesc, hx]
  | cons y ys ih =>
    rw [List.pairwise_cons] at h
    obtain ⟨hy, hys⟩ := h
    unfold insertDesc
    split
    next hlt =>
      have hnil : (y :: ys).filter (fun p => decide (p.2 = q)) = [] := by
        rw [List.filter_eq_nil_iff]
        intro z hz
        rcases List.mem_cons.mp hz with rfl | hz
        · simpa using ne_of_lt (hx ▸ hlt)
        · simpa using ne_of_lt (hx ▸ lt_of_le_of_lt (hy z hz) hlt)
      rw [List.filter_cons, hnil]
      simp [hx]
    next hge =>
      rw [List.filter_cons, List.filter_cons]
      by_cases hyq : y.2 = q
      · simp [hyq, ih hys]
      · simp [hyq, ih hys]

theorem insertDesc_filter_ne (x : String × ℚ) (q : ℚ) (hx : ¬ x.2 = q)
    (l : List (String × ℚ)) :
    (insertDesc x l).filter (fun p => decide (p.2 = q)) =
      l.filter (fun p => decide (p.2 = q)) := by
  induction l with
  | nil => simp [insertDesc, hx]
  | cons y ys ih =>
    unfold insertDesc
    split
    · rw [List.filter_cons, List.filter_cons]
      simp [hx]
    · rw [List.filter_cons, List.filter_cons, ih]

theorem sortLoop_pairwise (l acc : List (String × ℚ))
    (h : acc.Pairwise (fun a b => b.2 ≤ a.2)) :
    (l.foldl (fun acc x => insertDesc x acc) acc).Pairwise
      (fun a b => b.2 ≤ a.2) := by
  induction l generalizing acc with
  | nil => simpa using h
  | cons a l ih =>
    simp only [List.foldl_cons]
    exact ih _ (insertDesc_pairwise a h)

theorem sortLoop_perm (l acc : List (String × ℚ)) :
    List.Perm (l.foldl (fun acc x => insertDesc x acc) acc) (acc ++ l) := by
  induction l generalizing acc with
  | nil => simp
  | cons a l ih =>
    simp only [List.foldl_cons]
    have h1 := ih (insertDesc a acc)
    have h2 := (insertDesc_perm a acc).append_right l
    have h3 : List.Perm (acc ++ a :: l) (a :: (acc ++ l)) := List.perm_middle
    exact (h1.trans (h2.trans h3.symm))

theorem sortLoop_filter (q : ℚ) (l acc : List (String × ℚ))
    (h : acc.Pairwise (fun a b => b.2 ≤ a.2)) :
    (l.foldl (fun acc x => insertDesc x acc) acc).filter
        (fun p => decide (p.2 = q)) =
      acc.filter (fun p => decide (p.2 = q)) ++
        l.filter (fun p => decide (p.2 = q)) := by
  induction l generalizing acc with
  | nil => simp
  | cons a l ih =>
    simp only [List.foldl_cons]
    rw [ih _ (insertDesc_pairwise a h)]
    by_cases ha : a.2 = q
    · rw [insertDesc_filter_eq a q ha h, List.filter_cons]
      simp [ha]
    · rw [insertDesc_filter_ne a q ha, List.filter_cons]
      simp [ha]

theorem sortByAmountDesc_pairwise (l : List (String × ℚ)) :
    (sortByAmountDesc l).Pairwise (fun a b => b.2 ≤ a.2) :=
  sortLoop_pairwise l [] List.Pairwise.nil

theorem sortByAmountDesc_perm (l : List (String × ℚ)) :
    List.Perm (sortByAmountDesc l) l := by
  simpa [sortByAmountDesc] using sortLoop_perm l []

theorem sortByAmountDesc_filter (q : ℚ) (l : List (String × ℚ)) :
    (sortByAmountDesc l).filter (fun p => decide (p.2 = q)) =
      l.filter (fun p => decide (p.2 = q)) := by
  simpa [sortByAmountDesc] using sortLoop_filter q l [] List.Pairwise.nil

theorem addSpending_sum (acc : List (String × ℚ)) (n : String) (a : ℚ) :
    ((addSpending acc n a).map Prod.snd).sum = (acc.map Prod.snd).sum + a := by
  induction acc with
  | nil => simp [addSpending]
  | cons p ps ih =>
    unfold addSpending
    split
    · simp only [List.map_cons, List.sum_cons]
      ring
    · simp only [List.map_cons, List.sum_cons, ih]
      ring

theorem addSpending_nonneg {acc : List (String × ℚ)} {n : String} {a : ℚ}
    (hacc : ∀ p ∈ acc, 0 ≤ p.2) (ha : 0 ≤ a) :
    ∀ p ∈ addSpending acc n a, 0 ≤ p.2 := by
  induction acc with
  | nil =>
    intro p hp
    simp [addSpending] at hp
    simp [hp, ha]
  | cons y ys ih =>
    intro p hp
    unfold addSpending at hp
    split at hp
    · rcases List.mem_cons.mp hp with rfl | hp
      · exact add_nonneg (hacc y (List.mem_cons_self y ys)) ha
      · exact hacc p (List.mem_cons_of_mem y hp)
    · rcases List.mem_cons.mp hp with rfl | hp
      · exact hacc p (List.mem_cons_self p ys)
      · exact ih (fun z hz => hacc z (List.mem_cons_of_mem y hz)) p hp

theorem spendLoop_sum (cats : List Category) (ts : List Transaction)
    (acc : List (String × ℚ)) :
    ((ts.foldl (fun acc t =>
        addSpending acc (resolveCategoryName cats t) t.amount) acc).map
      Prod.snd).sum =
      (acc.map Prod.snd).sum + (ts.map Transaction.amount).sum := by
  induction ts generalizing acc with
  | nil => simp
  | cons t ts ih =>
    simp only [List.foldl_cons, List.map_cons, List.sum_cons]
    rw [ih, addSpending_sum]
    ring

theorem spendLoop_nonneg (cats : List Category) (ts : List Transaction)
    (acc : List (String × ℚ))
    (hacc : ∀ p ∈ acc, 0 ≤ p.2) (hts : ∀ t ∈ ts, 0 ≤ t.amount) :
    ∀ p ∈ ts.foldl (fun acc t =>
        addSpending acc (resolveCategoryName cats t) t.amount) acc,
      0 ≤ p.2 := by
  induction ts generalizing acc with
  | nil => simpa using hacc
  | cons t ts ih =>
    simp only [List.foldl_cons]
    exact ih _ (addSpending_nonneg hacc (hts t (List.mem_cons_self t ts)))
      (fun t' ht' => hts t' (List.mem_cons_of_mem t ht'))

theorem categorySpending_sum (txs : List Transaction) (cats : List Category) :
    ((categorySpending txs cats).map Prod.snd).sum =
      ((txs.filter (fun t => decide (t.type = "expense"))).map
        Transaction.amount).sum := by
  unfold categorySpending
  simpa using spendLoop_sum cats _ []

theorem categorySpending_nonneg (txs : List Transaction) (cats : List Category)
    (h : ∀ t ∈ txs, 0 ≤ t.amount) :
    ∀ p ∈ categorySpending txs cats, 0 ≤ p.2 := by
  unfold categorySpending
  exact spendLoop_nonneg cats _ [] (by simp)
    (fun t ht => h t (List.mem_of_mem_filter ht))

theorem sum_map_take_le (s : List (String × ℚ))
    (hnn : ∀ p ∈ s, 0 ≤ p.2) (k : Nat) :
    ((s.take k).map Prod.snd).sum ≤ (s.map Prod.snd).sum := by
  conv_rhs => rw [← List.take_append_drop k s]
  rw [List.map_append, List.sum_append]
  have hd : 0 ≤ ((s.drop k).map Prod.snd).sum := by
    apply List.sum_nonneg
    intro x hx
    obtain ⟨p, hp, rfl⟩ := List.mem_map.mp hx
    exact hnn p (List.drop_subset k s hp)
  linarith

theorem getUserReportData_data_inv {txns : List Transaction}
    {cats : List Category} {uid : Nat} {nowMs : Int}
    {targetDate : Option Int} {r : ReportData}
    (h : getUserReportData txns cats uid nowMs targetDate = .data r) :
    r = buildReport
      (periodTransactions txns uid (reportDateMs nowMs targetDate))
      cats uid (civilOfMs (reportDateMs nowMs targetDate)) := by
  unfold getUserReportData at h
  split at h
  · exact ReportResult.noConfusion h
  · injection h with h
    exact h.symm

theorem buildReport_topCategories (T : List Transaction)
    (cats : List Category) (uid : Nat) (rc : Civil) :
    (buildReport T cats uid rc).topCategories =
      (sortByAmountDesc (categorySpending T
        (cats.filter (fun c => decide (c.userId = uid))))).take 3 := rfl

theorem buildReport_totalExpenses (T : List Transaction)
    (cats : List Category) (uid : Nat) (rc : Civil) :
    (buildReport T cats uid rc).totalExpenses =
      ((T.filter (fun t => decide (t.type = "expense"))).map
        Transaction.amount).sum := rfl

/-- C8: whenever getUserReportData returns data, `topCategories` has at
most 3 entries and is sorted descending by amount; with the data model's
positive-amount invariant the listed amounts sum to at most
`totalExpenses`; and the sort used is stable (elements of equal amount
keep their first-encountered order), so the result is deterministic. -/
theorem claim_C8_top_categories (txns : List Transaction)
    (cats : List Category) (uid : Nat) (nowMs : Int)
    (targetDate : Option Int) (r : ReportData)
    (h : getUserReportData txns cats uid nowMs targetDate = .data r) :
    r.topCategories.length ≤ 3 ∧
    r.topCategories.Pairwise (fun a b => b.2 ≤ a.2) ∧
    ((∀ t ∈ txns, 0 < t.amount) →
      (r.topCategories.map Prod.snd).sum ≤ r.totalExpenses) ∧
    (∀ (l : List (String × ℚ)) (q : ℚ),
      (sortByAmountDesc l).filter (fun p => decide (p.2 = q)) =
        l.filter (fun p => decide (p.2 = q))) := by
  obtain rfl := getUserReportData_data_inv h
  rw [buildReport_topCategories, buildReport_totalExpenses]
  refine ⟨?_, ?_, ?_, fun l q => sortByAmountDesc_filter q l⟩
  · simp [List.length_take_le 3]
  · exact (sortByAmountDesc_pairwise _).sublist (List.take_sublist 3 _)
  · intro hpos
    have hT : ∀ t ∈ periodTransactions txns uid (reportDateMs nowMs targetDate),
        0 ≤ t.amount := by
      intro t ht
      exact le_of_lt (hpos t (List.mem_of_mem_filter ht))
    have hS := categorySpending_nonneg
      (periodTransactions txns uid (reportDateMs nowMs targetDate))
      ((cats.filter (fun c => decide (c.userId = uid)))) hT
    have hs : ∀ p ∈ sortByAmountDesc (categorySpending
        (periodTransactions txns uid (reportDateMs nowMs targetDate))
        (cats.filter (fun c => decide (c.userId = uid)))), 0 ≤ p.2 := by
      intro p hp
      exact hS p ((sortByAmountDesc_perm _).mem_iff.mp hp)
    have h1 := sum_map_take_le _ hs 3
    have h2 : ((sortByAmountDesc (categorySpending
        (periodTransactions txns uid (reportDateMs nowMs targetDate))
        (cats.filter (fun c => decide (c.userId = uid))))).map Prod.snd).sum =
        ((categorySpending
          (periodTransactions txns uid (reportDateMs nowMs targetDate))
          (cats.filter (fun c => decide (c.userId = uid)))).map Prod.snd).sum :=
      ((sortByAmountDesc_perm _).map Prod.snd).sum_eq
    rw [h2, categorySpending_sum] at h1
    exact h1

/-- Concrete fixture: the spec scenario's transactions for March 1970
(user 1): two Food expenses, one Rent expense, one income. -/
def txnsR : List Transaction :=
  [⟨1, 100, "expense", some 10, mkDateMs 1970 2 10⟩,
   ⟨1, 50, "expense", some 10, mkDateMs 1970 2 10⟩,
   ⟨1, 200, "expense", some 20, mkDateMs 1970 2 10⟩,
   ⟨1, 500, "income", none, mkDateMs 1970 2 10⟩]

/-- Concrete fixture: the Food and Rent categories of user 1. -/
def catsR : List Category := [⟨10, 1, "Food"⟩, ⟨20, 1, "Rent"⟩]

/-- Concrete fixture: explicit target date March 15 1970. -/
def targetR : Int := mkDateMs 1970 2 15

/-- Concrete fixture: the report payload computed for the scenario. -/
def reportR : ReportData :=
  buildReport (periodTransactions txnsR 1 targetR) catsR 1 (civilOfMs targetR)

/-- C8 witness: the top-categories bounds at the concrete scenario
store; under the program's category resolution (which never matches and
buckets every expense under "Other") the top categories come out as
[("Other", 350)]. -/
theorem claim_C8_witness :
    reportR.topCategories.length ≤ 3 ∧
    reportR.topCategories.Pairwise (fun a b => b.2 ≤ a.2) ∧
    (reportR.topCategories.map Prod.snd).sum ≤ reportR.totalExpenses ∧
    reportR.topCategories = [("Other", 350)] := by
  have H := claim_C8_top_categories txnsR catsR 1 0 (some targetR) reportR
    (by with_unfolding_all rfl)
  exact ⟨H.1, H.2.1, H.2.2.1 (by with_unfolding_all decide),
    by with_unfolding_all decide⟩
